import Mathlib

/-!
Shallow embedding of the token-activation helpers of the `ethers-helpers`
repository (src/lib/tokens.ts, src/lib/network.ts, src/client/tokens.ts,
src/client/networks.ts).

Modelling conventions:
* JavaScript `number` values are modelled as exact rationals (`Rat`);
  `bigint` contract return values are modelled as `Int`.
* Contract calls go through an explicit environment `ChainEnv` mapping
  contract addresses to call results; a rejected promise is an
  `Except.error (CallError.failure msg)`, and invoking an `undefined`
  function value (a JS TypeError) is `CallError.typeError`.
* Promises are modelled by `Except`: the observable result of an
  `async` function is either its resolved value or its rejection.
-/

/-- The `Address` from src/lib/tokens.ts: a hex string. -/
abbrev Address : Type := String

/-- A failure of an external call, or a JS runtime error. -/
inductive CallError where
  /-- A rejected contract call (network failure, revert, ...). -/
  | failure (msg : String)
  /-- A JS `TypeError`, e.g. calling a value that is `undefined`. -/
  | typeError
deriving Repr, DecidableEq

/-- The `Token` interface from src/lib/tokens.ts. -/
structure Token where
  name : String
  symbol : String
  address : Address
  oracleAddress : Option Address
  image : String
deriving Repr, DecidableEq

/-- The `Network` interface from src/lib/network.ts. -/
structure Network where
  name : String
  nativeCurrency : String
  rpc : String
  explorer : String
  tokens : List Token
deriving Repr, DecidableEq

/-- The `Networks` from src/lib/network.ts: a mapping from chain id to
network, modelled as an association list with lookup by chain id. -/
def Networks : Type := List (Nat × Network)

/-- Indexing `networks[chainId]` from src/client/tokens.ts. -/
def Networks.lookupChain (ns : Networks) (chainId : Nat) : Option Network :=
  List.lookup chainId ns

/-- A transfer request as submitted to the token contract:
`contract.transfer(to, formattedAmount)`. -/
structure TransferCall where
  contract : Address
  toAddr : Address
  rawAmount : Rat
deriving Repr, DecidableEq

/-- An `ethers.ContractTransactionResponse`, opaque to this library. -/
structure TxResponse where
  hash : String
deriving Repr, DecidableEq

/-- The external chain as seen through the `ethers.Contract` calls this
library makes (the ABI in src/lib/ABI.ts): `decimals()`,
`balanceOf(address)`, `latestRoundData().answer`, `transfer(to, amount)`. -/
structure ChainEnv where
  /-- The `contract.decimals()` on the contract at the given address
  (a `uint8`, converted by `Number(...)`). -/
  decimalsOf : Address → Except CallError Nat
  /-- The `contract.balanceOf(addr)` (a `uint256` bigint). -/
  balanceOf : Address → Address → Except CallError Int
  /-- The `oracleContract.latestRoundData().answer` (an `int256` bigint). -/
  latestRoundAnswer : Address → Except CallError Int
  /-- The `contract.transfer(to, amount)`: the pending transaction response. -/
  transferResult : TransferCall → Except CallError TxResponse

/-- The `getBalance` from src/lib/tokens.ts:
`Number(await contract.balanceOf(address)) / 10 ** decimals`.
The bound contract is identified by its address. -/
def TokenLib.getBalance (env : ChainEnv) (contract : Address) (address : Address)
    (decimals : Nat) : Except CallError Rat :=
  (env.balanceOf contract address).map (fun balance => (balance : Rat) / 10 ^ decimals)

/-- The `transfer` from src/lib/tokens.ts:
`formattedAmount = amount * 10 ** decimals; contract.transfer(to, formattedAmount)`. -/
def TokenLib.transfer (env : ChainEnv) (contract : Address) (decimals : Nat)
    (toAddr : Address) (amount : Rat) : Except CallError TxResponse :=
  let formattedAmount := amount * 10 ^ decimals
  env.transferResult { contract := contract, toAddr := toAddr, rawAmount := formattedAmount }

/-- The `getPriceViaOracle` from src/lib/tokens.ts:
`Number((await oracleContract.latestRoundData()).answer) / 10 ** 8`. -/
def TokenLib.getPriceViaOracle (env : ChainEnv) (oracleContract : Address) :
    Except CallError Rat :=
  (env.latestRoundAnswer oracleContract).map (fun answer => (answer : Rat) / 10 ^ 8)

/-- The `{ chainId, token }` argument the fallback price function receives
(src/client/tokens.ts, `ClientToken.getPrice`). -/
structure PriceArgs where
  chainId : Nat
  token : Token
deriving Repr, DecidableEq

/-- The caller-supplied `customPriceCalculation` callback:
`(args: { chainId, token }) => Promise<number> | number`. -/
def PriceFn : Type := PriceArgs → Except CallError Rat

/-- The `ethers.Signer` as used by this library: an optional provider
(whose network resolves a chain id) and the signer's address
(`signer.getAddress()`). -/
structure Provider where
  /-- The `Number((await provider.getNetwork()).chainId)`. -/
  chainId : Nat

/-- A signer; `provider` is `none` when the signer has no connection. -/
structure Signer where
  provider : Option Provider
  address : Address

/-- The state the `ClientToken` constructor establishes
(src/client/tokens.ts, first draft, constructor body): the token
descriptor and context are stored, a contract handle is bound to
`token.address`, and an oracle contract handle is bound exactly when
`token.oracleAddress` is present.  The mutable cache fields
(`decimals`, `balance`, `price`) are not yet assigned at this point. -/
structure ClientTokenCore where
  token : Token
  chainId : Nat
  signerAddress : Address
  /-- The `this.contract = new ethers.Contract(token.address, ABI, signer)`. -/
  contract : Address
  /-- The `this.oracleContract`, bound iff `token.oracleAddress` is set. -/
  oracleContract : Option Address
  customPriceCalculation : Option PriceFn

/-- The `ClientToken` constructor (src/client/tokens.ts, first draft,
lines 32-50).  It performs no validation of any kind: it stores its
arguments and binds the contract handle(s). -/
def ClientToken.construct (token : Token) (chainId : Nat)
    (signerAddress : Address) (customPriceCalculation : Option PriceFn) :
    ClientTokenCore :=
  { token := token
    chainId := chainId
    signerAddress := signerAddress
    contract := token.address
    oracleContract := token.oracleAddress
    customPriceCalculation := customPriceCalculation }

/-- The `ClientToken.getPrice` (src/client/tokens.ts, first draft): if an
oracle contract is bound, read it via `getPriceViaOracle`; otherwise call
`this.customPriceCalculation({ chainId, token })`.  When the fallback is
absent that call is `undefined(...)`, a JS `TypeError` at the price read
(the `@ts-expect-error` in the source suppresses exactly this). -/
def ClientTokenCore.getPrice (core : ClientTokenCore) (env : ChainEnv) :
    Except CallError Rat :=
  match core.oracleContract with
  | some oracleContract => TokenLib.getPriceViaOracle env oracleContract
  | none =>
    match core.customPriceCalculation with
    | some f => f { chainId := core.chainId, token := core.token }
    | none => .error .typeError

/-- A fully initialized `ClientToken`: the constructor state plus the
mutable cache fields set by `initialize`/`update`. -/
structure ClientToken where
  core : ClientTokenCore
  decimals : Nat
  balance : Rat
  price : Rat

/-- The `ClientToken.getBalance`: `getBalance(this.contract,
this.signerAddress, this.decimals)` from src/lib/tokens.ts. -/
def ClientToken.getBalance (ct : ClientToken) (env : ChainEnv) :
    Except CallError Rat :=
  TokenLib.getBalance env ct.core.contract ct.core.signerAddress ct.decimals

/-- The `ClientToken.getPrice` on an initialized token (delegates to the
constructor-state price read; it does not use the cache). -/
def ClientToken.getPrice (ct : ClientToken) (env : ChainEnv) :
    Except CallError Rat :=
  ct.core.getPrice env

/-- The `ClientToken.transfer`: `transfer(this.contract, this.decimals, to,
amount)` from src/lib/tokens.ts. -/
def ClientToken.transfer (ct : ClientToken) (env : ChainEnv)
    (toAddr : Address) (amount : Rat) : Except CallError TxResponse :=
  TokenLib.transfer env ct.core.contract ct.decimals toAddr amount

/-- The raw transfer request `ClientToken.transfer` submits to the
contract, before the environment produces a response. -/
def ClientToken.transferSubmission (ct : ClientToken) (toAddr : Address)
    (amount : Rat) : TransferCall :=
  { contract := ct.core.contract, toAddr := toAddr,
    rawAmount := amount * 10 ^ ct.decimals }

/-- The `ClientToken.update` (src/client/tokens.ts, first draft, lines 72-80):
`getBalance()` and `getPrice()` are started concurrently; each result is
committed to its cache field by its own `.then` as soon as that read
succeeds, and `Promise.all` rejects if either read fails.  A read that
succeeds therefore commits its field even when the other read fails.
The result is the token state after the call together with the rejection
surfaced by `Promise.all`, if any. -/
def ClientToken.update (ct : ClientToken) (env : ChainEnv) :
    ClientToken × Option CallError :=
  let newBalance := ct.getBalance env
  let newPrice := ct.getPrice env
  let ct1 := match newBalance with
    | .ok balance => { ct with balance := balance }
    | .error _ => ct
  let ct2 := match newPrice with
    | .ok price => { ct1 with price := price }
    | .error _ => ct1
  (ct2, match newBalance, newPrice with
    | .error e, _ => some e
    | _, .error e => some e
    | _, _ => none)

/-- The `ClientTokenFactory.create` (src/client/tokens.ts): constructs the
`ClientToken` and awaits `initialize()`, which sets
`this.decimals = Number(await this.contract.decimals())` and then awaits
`update()`; the factory's promise resolves with the fully initialized
token only when the decimals, balance and price reads all succeed, and
rejects otherwise. -/
def ClientTokenFactory.create (env : ChainEnv) (token : Token)
    (chainId : Nat) (signerAddress : Address)
    (customPriceCalculation : Option PriceFn) :
    Except CallError ClientToken :=
  let core := ClientToken.construct token chainId signerAddress customPriceCalculation
  match env.decimalsOf core.contract with
  | .error e => .error e
  | .ok decimals =>
    match env.balanceOf core.contract core.signerAddress with
    | .error e => .error e
    | .ok rawBalance =>
      match core.getPrice env with
      | .error e => .error e
      | .ok price =>
        .ok { core := core, decimals := decimals,
              balance := (rawBalance : Rat) / 10 ^ decimals, price := price }

/-- Errors thrown by `getClientTokens` itself (src/client/tokens.ts). -/
inductive ActivationError where
  /-- The `throw new Error('Signer must have a provider')` — the spec's
  `NoProviderError`. -/
  | noProviderError
  /-- The `throw new Error('Network not supported')` — the spec's
  `UnsupportedNetworkError`. -/
  | unsupportedNetworkError
  /-- A per-token initialization rejection propagated by `Promise.all`. -/
  | callFailed (e : CallError)
deriving Repr, DecidableEq

/-- The `Promise.all` over a list of independent tasks, observed through its
result: it resolves with the list of values, in order, when every task
resolves, and rejects when any task rejects. -/
def allOk {α β : Type} (f : α → Except CallError β) :
    List α → Except CallError (List β)
  | [] => .ok []
  | a :: as =>
    match f a with
    | .error e => .error e
    | .ok b =>
      match allOk f as with
      | .error e => .error e
      | .ok bs => .ok (b :: bs)

/-- The `getClientTokens` (src/client/tokens.ts, first draft, lines 97-135):
resolve the provider (throw `NoProviderError` if absent), resolve the
chain id, look the network up in the registry (throw
`UnsupportedNetworkError` on a miss), read the signer's address, then
create one `ClientToken` per descriptor of the network's token list and
await them all. -/
def getClientTokens (env : ChainEnv) (signer : Signer)
    (networks : Networks) (customPriceCalculation : PriceFn) :
    Except ActivationError (List ClientToken) :=
  match signer.provider with
  | none => .error .noProviderError
  | some provider =>
    let chainId := provider.chainId
    match networks.lookupChain chainId with
    | none => .error .unsupportedNetworkError
    | some currentNetwork =>
      let address := signer.address
      match allOk
          (fun token => ClientTokenFactory.create env token chainId address
            (some customPriceCalculation))
          currentNetwork.tokens with
      | .ok clientTokens => .ok clientTokens
      | .error e => .error (.callFailed e)

/-- Modelled from the spec: `getActivatedClientTokens` is only declared
(`export declare function`, no body) in src/client/tokens (interface
draft); per the spec's activation engine it produces one activated
handle per token descriptor of the given network, using the chain id
resolved from the signer's provider (failing with the no-provider error
when absent), without touching the network value. -/
def getActivatedClientTokens (env : ChainEnv) (signer : Signer)
    (network : Network) : Except ActivationError (List ClientToken) :=
  match signer.provider with
  | none => .error .noProviderError
  | some provider =>
    match allOk
        (fun token => ClientTokenFactory.create env token provider.chainId
          signer.address none)
        network.tokens with
    | .ok clientTokens => .ok clientTokens
    | .error e => .error (.callFailed e)

/-- The `ClientActivatedNetwork<N>` from src/client/networks.ts:
`Omit<N, 'tokens'> & { tokens: readonly ClientActivatedToken[] }`. -/
structure ClientActivatedNetwork where
  name : String
  nativeCurrency : String
  rpc : String
  explorer : String
  tokens : List ClientToken

/-- The `getClientActivatedNetwork` from src/client/networks.ts:
`return { ...network, tokens: activatedTokens }` — a fresh object
spreading every field of the input network and replacing `tokens`. -/
def getClientActivatedNetwork (env : ChainEnv) (signer : Signer)
    (network : Network) : Except ActivationError ClientActivatedNetwork :=
  (getActivatedClientTokens env signer network).map (fun activatedTokens =>
    { name := network.name
      nativeCurrency := network.nativeCurrency
      rpc := network.rpc
      explorer := network.explorer
      tokens := activatedTokens })

/-! ### Helper lemmas -/

/-- What a successful `ClientTokenFactory.create` result contains: the
constructor state, the fetched decimals, and a balance and price equal to
the initial reads. -/
theorem ClientTokenFactory.create_ok_spec (env : ChainEnv) (token : Token)
    (chainId : Nat) (signerAddress : Address) (fb : Option PriceFn)
    (ct : ClientToken)
    (h : ClientTokenFactory.create env token chainId signerAddress fb = .ok ct) :
    ct.core = ClientToken.construct token chainId signerAddress fb ∧
    env.decimalsOf token.address = .ok ct.decimals ∧
    (∃ rawBalance, env.balanceOf token.address signerAddress = .ok rawBalance ∧
      ct.balance = (rawBalance : Rat) / 10 ^ ct.decimals) ∧
    ct.core.getPrice env = .ok ct.price := by
  unfold ClientTokenFactory.create at h
  simp only at h
  cases hd : env.decimalsOf (ClientToken.construct token chainId signerAddress fb).contract with
  | error e => rw [hd] at h; exact absurd h (by simp)
  | ok d =>
    rw [hd] at h
    cases hb : env.balanceOf (ClientToken.construct token chainId signerAddress fb).contract
        (ClientToken.construct token chainId signerAddress fb).signerAddress with
    | error e => rw [hb] at h; exact absurd h (by simp)
    | ok raw =>
      rw [hb] at h
      cases hp : (ClientToken.construct token chainId signerAddress fb).getPrice env with
      | error e => rw [hp] at h; exact absurd h (by simp)
      | ok p =>
        rw [hp] at h
        cases h
        exact ⟨rfl, hd, ⟨raw, hb, rfl⟩, hp⟩

/-- The `allOk` succeeds exactly on pointwise success, preserving order. -/
theorem allOk_ok_iff {α β : Type} (f : α → Except CallError β)
    (as : List α) (bs : List β) :
    allOk f as = .ok bs ↔
      bs.length = as.length ∧
      ∀ i (hi : i < as.length) (hj : i < bs.length),
        f (as.get ⟨i, hi⟩) = .ok (bs.get ⟨i, hj⟩) := by
  induction as generalizing bs with
  | nil =>
    simp only [allOk]
    constructor
    · rintro h
      cases h
      simp
    · rintro ⟨hlen, _⟩
      cases bs with
      | nil => rfl
      | cons b bs => simp at hlen
  | cons a as ih =>
    constructor
    · intro h
      unfold allOk at h
      cases hf : f a with
      | error e => rw [hf] at h; exact absurd h (by simp)
      | ok b =>
        rw [hf] at h
        cases hrest : allOk f as with
        | error e => rw [hrest] at h; exact absurd h (by simp)
        | ok bs' =>
          rw [hrest] at h
          rw [show (Except.ok (b :: bs') : Except CallError (List β)) = .ok bs ↔ b :: bs' = bs by simp] at h
          subst h
          obtain ⟨hlen, hpt⟩ := (ih bs').mp hrest
          refine ⟨by simp [hlen], ?_⟩
          intro i hi hj
          cases i with
          | zero => simpa using hf
          | succ n =>
            simp only [List.get_cons_succ]
            exact hpt n (Nat.lt_of_succ_lt_succ hi) (Nat.lt_of_succ_lt_succ hj)
    · rintro ⟨hlen, hpt⟩
      cases bs with
      | nil => simp at hlen
      | cons b bs' =>
        have hf : f a = .ok b := by simpa using hpt 0 (by simp) (by simp)
        have hrest : allOk f as = .ok bs' := by
          apply (ih bs').mpr
          refine ⟨by simpa using hlen, ?_⟩
          intro i hi hj
          simpa using hpt (i + 1) (Nat.succ_lt_succ hi) (Nat.succ_lt_succ hj)
        unfold allOk
        rw [hf, hrest]

/-- Existence form: `allOk` succeeds when every task succeeds. -/
theorem allOk_exists {α β : Type} (f : α → Except CallError β) (as : List α)
    (h : ∀ a ∈ as, ∃ b, f a = .ok b) : ∃ bs, allOk f as = .ok bs := by
  induction as with
  | nil => exact ⟨[], rfl⟩
  | cons a as ih =>
    obtain ⟨b, hb⟩ := h a (by simp)
    obtain ⟨bs, hbs⟩ := ih (fun x hx => h x (by simp [hx]))
    refine ⟨b :: bs, ?_⟩
    unfold allOk
    rw [hb, hbs]

/-! ### Concrete fixtures (token descriptors from the registry literal in
src/client/tokens.ts, and small test environments) -/

/-- The BUSD descriptor of chain 56 (has an oracle address). -/
def busdToken : Token :=
  { name := "Binance-Peg BUSD Token"
    symbol := "BUSD"
    address := "0xe9e7CEA3DedcA5984780Bafc599bD69ADd087D56"
    oracleAddress := some "0xcBb98864Ef56E9042e7d2efef76141f15731B82f"
    image := "https://cryptologos.cc/logos/binance-usd-busd-logo.svg" }

/-- The MIM descriptor of chain 43114 (no oracle address). -/
def mimToken : Token :=
  { name := "Magic Internet Money"
    symbol := "MIM"
    address := "0x130966628846BFd36ff31a822705796e8cb8C18D"
    oracleAddress := none
    image := "https://s2.coinmarketcap.com/static/img/coins/200x200/162.png" }

/-- A two-token network for chain 56: one token with an oracle, one
without (the spec's concrete activation scenario). -/
def bscNetwork : Network :=
  { name := "Binance Smart Chain"
    nativeCurrency := "BNB"
    rpc := "https://rpc.ankr.com/bsc"
    explorer := "https://snowtrace.io/"
    tokens := [busdToken, mimToken] }

/-- A registry holding only chain 56. -/
def demoNetworks : Networks := [(56, bscNetwork)]

/-- A fallback price function answering a constant 100. -/
def demoFallback : PriceFn := fun _ => .ok 100

/-- Another fallback price function, used to show the fallback is not
consulted for oracle-priced tokens. -/
def zeroFallback : PriceFn := fun _ => .ok 0

/-- An environment where every read succeeds: 18 decimals, raw balance
`1500000000000000000`, oracle answer `123456789000`. -/
def demoEnv : ChainEnv :=
  { decimalsOf := fun _ => .ok 18
    balanceOf := fun _ _ => .ok 1500000000000000000
    latestRoundAnswer := fun _ => .ok 123456789000
    transferResult := fun _ => .ok { hash := "0xtx" }
  }

/-- An environment where balance reads succeed but every oracle read
fails. -/
def oracleDownEnv : ChainEnv :=
  { decimalsOf := fun _ => .ok 18
    balanceOf := fun _ _ => .ok 1500000000000000000
    latestRoundAnswer := fun _ => .error (.failure "oracle down")
    transferResult := fun _ => .error (.failure "no tx") }

/-- A signer connected to chain 56. -/
def signer56 : Signer := { provider := some { chainId := 56 }, address := "0xSigner" }

/-- A signer connected to chain 1 (absent from `demoNetworks`). -/
def signer1 : Signer := { provider := some { chainId := 1 }, address := "0xSigner" }

/-- A signer with no provider. -/
def signerNoProvider : Signer := { provider := none, address := "0xSigner" }

/-- An initialized BUSD handle with 18 cached decimals and stale cache
values `balance = 3`, `price = 7`. -/
def staleHandle : ClientToken :=
  { core := ClientToken.construct busdToken 56 "0xSigner" (some demoFallback)
    decimals := 18
    balance := 3
    price := 7 }

/-- An initialized BUSD handle with 6 cached decimals. -/
def handle6 : ClientToken :=
  { core := ClientToken.construct busdToken 56 "0xSigner" (some demoFallback)
    decimals := 6
    balance := 0
    price := 0 }

/-! ### Claim theorems -/

/-- Claim C1, counterexample.  The claim says a token descriptor without
an oracle address and with an absent fallback price function fails at
construction time with `MissingPriceSourceError`.  In the code the
constructor performs no such check: it returns a handle that has neither
an oracle contract nor a fallback function (so the claimed
construction-time enforcement of the one-price-source invariant is
false), and the failure happens only later, at the `getPrice()` read,
as a runtime `TypeError`. -/
theorem c1_counterexample :
    ¬((ClientToken.construct mimToken 43114 "0xSigner" none).oracleContract.isSome = true ∨
      (ClientToken.construct mimToken 43114 "0xSigner" none).customPriceCalculation.isSome = true) ∧
    (ClientToken.construct mimToken 43114 "0xSigner" none).getPrice demoEnv =
      .error .typeError := by
  constructor
  · simp [ClientToken.construct, mimToken]
  · rfl

/-- Claim C1, amended: the `ClientToken` constructor never validates the
price source.  For every token descriptor without an oracle address,
constructing the handle with an absent fallback succeeds (the handle has
no oracle contract bound), and the missing price source surfaces only at
the first `getPrice()` call, as a runtime `TypeError` (there is no
`MissingPriceSourceError` in the code). -/
theorem c1_amended (token : Token) (chainId : Nat) (addr : Address)
    (env : ChainEnv) (h : token.oracleAddress = none) :
    (ClientToken.construct token chainId addr none).oracleContract = none ∧
    (ClientToken.construct token chainId addr none).getPrice env =
      .error .typeError := by
  constructor
  · simp [ClientToken.construct, h]
  · simp [ClientTokenCore.getPrice, ClientToken.construct, h]

/-- Claim C1, witness: the amended statement at the concrete MIM
descriptor. -/
theorem c1_witness :
    (ClientToken.construct mimToken 43114 "0xSigner" none).getPrice oracleDownEnv =
      .error .typeError :=
  (c1_amended mimToken 43114 "0xSigner" oracleDownEnv rfl).2

/-- Claim C2, counterexample.  The claim says `update()` commits the new
balance and price only after both reads succeed, with no partial commit.
On `staleHandle` (cached balance 3, price 7) in an environment where the
balance read succeeds (1.5) and the oracle price read fails, `update()`
does commit the new balance while the price read's failure is surfaced:
the cached balance changes even though one read failed. -/
theorem c2_counterexample :
    (staleHandle.update oracleDownEnv).2.isSome = true ∧
    (staleHandle.update oracleDownEnv).1.balance ≠ staleHandle.balance := by
  constructor
  · rfl
  · norm_num [ClientToken.update, ClientToken.getBalance, TokenLib.getBalance,
      ClientToken.getPrice, ClientTokenCore.getPrice, TokenLib.getPriceViaOracle,
      staleHandle, oracleDownEnv, ClientToken.construct, busdToken, Except.map]

/-- Claim C2, amended: `update()` commits each cache field independently.
Each read's result is committed by its own continuation as soon as that
read succeeds; a field whose read fails keeps its previous value, and
`Promise.all` surfaces the failure.  So when the balance read succeeds
and the price read fails, the new balance is committed and only the
price keeps its previous value (and symmetrically); both fields are
committed exactly when both reads succeed. -/
theorem c2_amended (env : ChainEnv) (ct : ClientToken) :
    (∀ b e, ct.getBalance env = .ok b → ct.getPrice env = .error e →
      ct.update env = ({ ct with balance := b }, some e)) ∧
    (∀ e p, ct.getBalance env = .error e → ct.getPrice env = .ok p →
      ct.update env = ({ ct with price := p }, some e)) ∧
    (∀ b p, ct.getBalance env = .ok b → ct.getPrice env = .ok p →
      ct.update env = ({ ct with balance := b, price := p }, none)) := by
  refine ⟨?_, ?_, ?_⟩ <;> intro x y hx hy <;>
    simp [ClientToken.update, hx, hy]

/-- Claim C2, witness: the amended statement at `staleHandle` in the
oracle-down environment: the balance commits to 1.5 while the price
keeps its previous value 7 and the oracle failure is surfaced. -/
theorem c2_witness :
    staleHandle.update oracleDownEnv =
      ({ staleHandle with balance := 3 / 2 }, some (.failure "oracle down")) := by
  have h := (c2_amended oracleDownEnv staleHandle).1 (3 / 2) (.failure "oracle down")
    (by norm_num [ClientToken.getBalance, TokenLib.getBalance, staleHandle,
      oracleDownEnv, ClientToken.construct, busdToken, Except.map]) (by rfl)
  exact h

/-- Claim C3: `transfer(to, amount)` submits to the contract a raw
amount equal to `amount * 10 ^ decimals` (the `formattedAmount` of
src/lib/tokens.ts), where `decimals` is the handle's cached decimal
precision. -/
theorem c3_transfer (ct : ClientToken) (env : ChainEnv) (toAddr : Address)
    (amount : Rat) (d : Nat) (h : ct.decimals = d) :
    ct.transfer env toAddr amount =
      env.transferResult { contract := ct.core.contract, toAddr := toAddr,
                           rawAmount := amount * 10 ^ d } ∧
    ct.transferSubmission toAddr amount =
      { contract := ct.core.contract, toAddr := toAddr,
        rawAmount := amount * 10 ^ d } := by
  subst h
  exact ⟨rfl, rfl⟩

/-- Claim C3, witness: with 6 cached decimals, transferring amount 2.5
submits raw amount 2500000. -/
theorem c3_witness :
    handle6.transferSubmission "0xReceiver" (5 / 2) =
      { contract := busdToken.address, toAddr := "0xReceiver",
        rawAmount := 2500000 } := by
  have h := (c3_transfer handle6 demoEnv "0xReceiver" (5 / 2) 6 rfl).2
  rw [h]
  congr 1
  norm_num

/-- Claim C4: when the signer's provider resolves to a chain id that is
not a key of the registry, `getClientTokens` fails with the
unsupported-network error (`Error('Network not supported')`); the
`Except.error` result carries no handles, so no partial handles are
returned. -/
theorem c4_unsupportedNetwork (env : ChainEnv) (signer : Signer)
    (networks : Networks) (fb : PriceFn) (prov : Provider)
    (hp : signer.provider = some prov)
    (hn : networks.lookupChain prov.chainId = none) :
    getClientTokens env signer networks fb = .error .unsupportedNetworkError := by
  unfold getClientTokens
  rw [hp]
  simp [hn]

/-- Claim C4, witness: a signer resolving to chain id 1, absent from the
demo registry, is rejected with the unsupported-network error. -/
theorem c4_witness :
    getClientTokens demoEnv signer1 demoNetworks demoFallback =
      .error .unsupportedNetworkError :=
  c4_unsupportedNetwork demoEnv signer1 demoNetworks demoFallback
    { chainId := 1 } rfl rfl

/-- Claim C5: for every token descriptor with an oracle address,
`getPrice()` returns exactly `latestRoundData().answer / 10 ^ 8`, and it
reads only the oracle: the result is the same whichever fallback
function the handle was constructed with. -/
theorem c5_oraclePrice (token : Token) (chainId : Nat) (addr : Address)
    (fb fb' : Option PriceFn) (env : ChainEnv) (oc : Address) (a : Int)
    (hoc : token.oracleAddress = some oc)
    (ha : env.latestRoundAnswer oc = .ok a) :
    (ClientToken.construct token chainId addr fb).getPrice env =
      .ok ((a : Rat) / 10 ^ 8) ∧
    (ClientToken.construct token chainId addr fb).getPrice env =
      (ClientToken.construct token chainId addr fb').getPrice env := by
  constructor
  · simp [ClientToken.construct, ClientTokenCore.getPrice, hoc,
      TokenLib.getPriceViaOracle, ha, Except.map]
  · simp [ClientToken.construct, ClientTokenCore.getPrice, hoc]

/-- Claim C5, witness: raw oracle answer 123456789000 yields price
1234.56789 on the BUSD handle. -/
theorem c5_witness :
    (ClientToken.construct busdToken 56 "0xSigner" (some demoFallback)).getPrice
      demoEnv = .ok (123456789 / 100000 : Rat) := by
  have h := (c5_oraclePrice busdToken 56 "0xSigner" (some demoFallback)
    (some zeroFallback) demoEnv "0xcBb98864Ef56E9042e7d2efef76141f15731B82f"
    123456789000 rfl rfl).1
  rw [h]
  norm_num

/-- Claim C6: `getBalance()` returns exactly
`balanceOf(signerAddress) / 10 ^ decimals` for the cached decimal
precision. -/
theorem c6_getBalance (ct : ClientToken) (env : ChainEnv) (d : Nat) (raw : Int)
    (hd : ct.decimals = d)
    (hb : env.balanceOf ct.core.contract ct.core.signerAddress = .ok raw) :
    ct.getBalance env = .ok ((raw : Rat) / 10 ^ d) := by
  subst hd
  simp [ClientToken.getBalance, TokenLib.getBalance, hb, Except.map]

/-- Claim C6, witness: raw balance 1500000000000000000 with 18 cached
decimals yields balance 1.5. -/
theorem c6_witness : staleHandle.getBalance demoEnv = .ok (3 / 2 : Rat) := by
  have h := c6_getBalance staleHandle demoEnv 18 1500000000000000000 rfl rfl
  rw [h]
  norm_num

/-- Claim C7: when the provider resolves to a registered chain id and
every per-token initialization succeeds, `getClientTokens` returns
exactly one handle per token descriptor of that network, in token-list
order; the i-th handle is exactly the initialized handle of the i-th
descriptor, carrying that descriptor, the fetched decimals, and an
initial balance and price equal to the initial reads. -/
theorem c7_activation (env : ChainEnv) (signer : Signer) (networks : Networks)
    (fb : PriceFn) (prov : Provider) (net : Network)
    (hp : signer.provider = some prov)
    (hn : networks.lookupChain prov.chainId = some net)
    (hok : ∀ t ∈ net.tokens, ∃ ct,
      ClientTokenFactory.create env t prov.chainId signer.address (some fb) = .ok ct) :
    ∃ cts, getClientTokens env signer networks fb = .ok cts ∧
      cts.length = net.tokens.length ∧
      ∀ i (hi : i < net.tokens.length) (hj : i < cts.length),
        ClientTokenFactory.create env (net.tokens.get ⟨i, hi⟩) prov.chainId
            signer.address (some fb) = .ok (cts.get ⟨i, hj⟩) ∧
        (cts.get ⟨i, hj⟩).core.token = net.tokens.get ⟨i, hi⟩ ∧
        env.decimalsOf (net.tokens.get ⟨i, hi⟩).address =
          .ok (cts.get ⟨i, hj⟩).decimals ∧
        (∃ rawBalance,
          env.balanceOf (net.tokens.get ⟨i, hi⟩).address signer.address =
            .ok rawBalance ∧
          (cts.get ⟨i, hj⟩).balance =
            (rawBalance : Rat) / 10 ^ (cts.get ⟨i, hj⟩).decimals) ∧
        (cts.get ⟨i, hj⟩).core.getPrice env = .ok (cts.get ⟨i, hj⟩).price := by
  obtain ⟨cts, hAll⟩ := allOk_exists
    (fun token => ClientTokenFactory.create env token prov.chainId signer.address (some fb))
    net.tokens hok
  obtain ⟨hlen, hpt⟩ := (allOk_ok_iff _ _ _).mp hAll
  refine ⟨cts, ?_, hlen, ?_⟩
  · unfold getClientTokens
    rw [hp]
    simp only [hn, hAll]
  · intro i hi hj
    have hcreate := hpt i hi hj
    have hspec := ClientTokenFactory.create_ok_spec env (net.tokens.get ⟨i, hi⟩)
      prov.chainId signer.address (some fb) (cts.get ⟨i, hj⟩) hcreate
    refine ⟨hcreate, ?_, hspec.2.1, hspec.2.2.1, hspec.2.2.2⟩
    rw [hspec.1]
    simp [ClientToken.construct]

/-- Claim C7, witness: the spec's concrete scenario — chain 56 with two
tokens, one with an oracle and one without; activation returns exactly
two handles. -/
theorem c7_witness :
    ∃ cts, getClientTokens demoEnv signer56 demoNetworks demoFallback = .ok cts ∧
      cts.length = 2 := by
  obtain ⟨cts, h1, h2, _⟩ := c7_activation demoEnv signer56 demoNetworks
    demoFallback { chainId := 56 } bscNetwork rfl rfl
    (by
      intro t ht
      simp only [bscNetwork, List.mem_cons, List.not_mem_nil, or_false] at ht
      rcases ht with rfl | rfl
      · exact ⟨_, rfl⟩
      · exact ⟨_, rfl⟩)
  exact ⟨cts, h1, h2⟩

/-- Claim C8: a signer with no provider is rejected with the no-provider
error (`Error('Signer must have a provider')`), and this happens before
any chain-id resolution, registry lookup or token construction: the
result is the same whatever the chain environment, registry and fallback
are. -/
theorem c8_noProvider (env : ChainEnv) (signer : Signer) (networks : Networks)
    (fb : PriceFn) (h : signer.provider = none) :
    getClientTokens env signer networks fb = .error .noProviderError ∧
    ∀ env' networks' fb',
      getClientTokens env' signer networks' fb' =
        getClientTokens env signer networks fb := by
  constructor
  · unfold getClientTokens
    rw [h]
  · intro env' networks' fb'
    unfold getClientTokens
    rw [h]

/-- Claim C8, witness: the disconnected signer is rejected with the
no-provider error. -/
theorem c8_witness :
    getClientTokens demoEnv signerNoProvider demoNetworks demoFallback =
      .error .noProviderError :=
  (c8_noProvider demoEnv signerNoProvider demoNetworks demoFallback rfl).1

/-- Claim C9: the fallback price function is consulted only for tokens
without an oracle address.  For a descriptor with an oracle address,
`getPrice()` is unchanged under replacing the fallback function, so the
fallback is never invoked; for a descriptor without one, `getPrice()` is
exactly the fallback applied to the pair `{chainId, token}` recorded at
construction. -/
theorem c9_fallbackUsage (token : Token) (chainId : Nat) (addr : Address)
    (env : ChainEnv) (f : PriceFn) :
    (token.oracleAddress.isSome = true →
      ∀ g : PriceFn,
        (ClientToken.construct token chainId addr (some f)).getPrice env =
          (ClientToken.construct token chainId addr (some g)).getPrice env) ∧
    (token.oracleAddress = none →
      (ClientToken.construct token chainId addr (some f)).getPrice env =
        f { chainId := chainId, token := token }) := by
  constructor
  · intro h g
    obtain ⟨oc, hoc⟩ := Option.isSome_iff_exists.mp h
    simp [ClientToken.construct, ClientTokenCore.getPrice, hoc]
  · intro h
    simp [ClientToken.construct, ClientTokenCore.getPrice, h]

/-- Claim C9, witness: on the oracle-priced BUSD descriptor two
different fallbacks give the same price; on the oracle-less MIM
descriptor the price is the fallback value at `{chainId, token}`. -/
theorem c9_witness :
    (ClientToken.construct busdToken 56 "0xSigner" (some demoFallback)).getPrice
        demoEnv =
      (ClientToken.construct busdToken 56 "0xSigner" (some zeroFallback)).getPrice
        demoEnv ∧
    (ClientToken.construct mimToken 43114 "0xSigner" (some demoFallback)).getPrice
        demoEnv = .ok 100 := by
  constructor
  · exact (c9_fallbackUsage busdToken 56 "0xSigner" demoEnv demoFallback).1
      rfl zeroFallback
  · rw [(c9_fallbackUsage mimToken 43114 "0xSigner" demoEnv demoFallback).2 rfl]
    rfl

/-- Claim C10: activation does not mutate its input.  A successful
`getClientActivatedNetwork` returns a fresh value copying every field of
the input network except `tokens`, which holds the activated handles;
and each returned handle carries a token descriptor value of the input
list unchanged.  (In this pure embedding the argument itself cannot be
mutated; the theorem states the copy structure the spread in
src/client/networks.ts produces.) -/
theorem c10_frame (env : ChainEnv) (signer : Signer) (network : Network)
    (an : ClientActivatedNetwork)
    (h : getClientActivatedNetwork env signer network = .ok an) :
    an.name = network.name ∧ an.nativeCurrency = network.nativeCurrency ∧
    an.rpc = network.rpc ∧ an.explorer = network.explorer ∧
    getActivatedClientTokens env signer network = .ok an.tokens ∧
    ∀ ct ∈ an.tokens, ct.core.token ∈ network.tokens := by
  unfold getClientActivatedNetwork at h
  cases hA : getActivatedClientTokens env signer network with
  | error e =>
    rw [hA] at h
    exact absurd h (by simp [Except.map])
  | ok ats =>
    rw [hA] at h
    simp only [Except.map, Except.ok.injEq] at h
    subst h
    refine ⟨rfl, rfl, rfl, rfl, rfl, ?_⟩
    intro ct hct
    simp only at hct
    unfold getActivatedClientTokens at hA
    cases hprov : signer.provider with
    | none =>
      rw [hprov] at hA
      exact absurd hA (by simp)
    | some prov =>
      rw [hprov] at hA
      simp only [] at hA
      cases hAll : allOk
          (fun token => ClientTokenFactory.create env token prov.chainId
            signer.address none) network.tokens with
      | error e => rw [hAll] at hA; exact absurd hA (by simp)
      | ok cts =>
        rw [hAll] at hA
        simp only [Except.ok.injEq] at hA
        subst hA
        obtain ⟨hlen, hpt⟩ := (allOk_ok_iff _ _ _).mp hAll
        obtain ⟨⟨i, hj⟩, rfl⟩ := List.mem_iff_get.mp hct
        have hcreate := hpt i (by omega) hj
        have hspec := ClientTokenFactory.create_ok_spec env
          (network.tokens.get ⟨i, by omega⟩) prov.chainId signer.address none
          _ hcreate
        rw [hspec.1]
        simp [ClientToken.construct]

/-- Claim C10, witness: the frame property at a concrete successful
activation of a one-token network. -/
theorem c10_witness :
    ∃ an, getClientActivatedNetwork demoEnv signer56
        { name := "Binance Smart Chain", nativeCurrency := "BNB",
          rpc := "https://rpc.ankr.com/bsc", explorer := "https://snowtrace.io/",
          tokens := [busdToken] } = .ok an ∧
      an.name = "Binance Smart Chain" ∧ an.rpc = "https://rpc.ankr.com/bsc" := by
  cases hA : getClientActivatedNetwork demoEnv signer56
      { name := "Binance Smart Chain", nativeCurrency := "BNB",
        rpc := "https://rpc.ankr.com/bsc", explorer := "https://snowtrace.io/",
        tokens := [busdToken] } with
  | error e =>
    have hok : (getClientActivatedNetwork demoEnv signer56
        { name := "Binance Smart Chain", nativeCurrency := "BNB",
          rpc := "https://rpc.ankr.com/bsc", explorer := "https://snowtrace.io/",
          tokens := [busdToken] }).isOk = true := rfl
    rw [hA] at hok
    exact absurd hok (by simp [Except.isOk, Except.toBool])
  | ok an =>
    obtain ⟨h1, _, h3, _, _, _⟩ := c10_frame demoEnv signer56 _ an hA
    exact ⟨an, rfl, h1, h3⟩
